import Mathlib

/-!
# Shallow embedding of the DA-Bubble backend core

This file embeds the registration/authentication flow and the chat/message/post
resource logic of the DA-Bubble Django backend:

* `user_auth_app/api/serializers.py` (`RegistrationSerializer`,
  `UsernameAuthTokenSerializer`),
* `user_auth_app/api/views.py` (`RegistrationView`, `CustomLogInView`),
* `user_auth_app/models.py` (`UserProfile`),
* `messenger_app/models.py` (`Chat`, `Message`, `Post` with their
  `on_delete` declarations),
* `messenger_app/api/serializers.py` (`ChatSerializer`, `PostSerializer`),
* `messenger_app/api/views.py` (`PostViewSet`).

The relational store is modelled as lists of records plus id counters; Django
`on_delete` semantics become explicit functions on the store.  Python string
operations used by the code (`str.title`, `str.split`, `str.strip`) are
modelled at the ASCII level.  Password hashing (`set_password`/`check_password`)
is modelled by an injective tagging function.  DRF field validation is
modelled per declared field; the e-mail format regex of `EmailField` is
conservatively abstracted to non-blankness (every claim below only depends on
rejection of blank values, and a stricter validator only shrinks the set of
accepted requests).
-/

namespace DABubble

/-! ## Python string primitives (ASCII-level) -/

/-- Whitespace class used by Python `str.split()` / `str.strip()`. -/
def pyIsSpace (c : Char) : Bool :=
  c = ' ' || c = '\t' || c = '\n' || c = '\x0d' || c = '\x0b' || c = '\x0c'

/-- Python `str.strip()`: removes leading and trailing whitespace.  This is
also what DRF `CharField`/`EmailField` apply by default
(`trim_whitespace=True`). -/
def pyStrip (s : String) : String :=
  ⟨((s.toList.dropWhile pyIsSpace).reverse.dropWhile pyIsSpace).reverse⟩

/-- Core of Python `str.title()`: a cased character that follows a cased
character is lowercased, one that does not is uppercased; other characters
are kept and reset the word boundary.  For ASCII the cased characters are
exactly the letters. -/
def pyTitleAux : Bool → List Char → List Char
  | _, [] => []
  | prevCased, c :: cs =>
    if c.isAlpha then
      (if prevCased then c.toLower else c.toUpper) :: pyTitleAux true cs
    else
      c :: pyTitleAux false cs

/-- Python `str.title()` (ASCII-level). -/
def pyTitle (s : String) : String :=
  ⟨pyTitleAux false s.toList⟩

/-- Core of Python `str.split()` with no separator: split on runs of
whitespace, producing no empty tokens.  `acc` holds the characters of the
current token in reverse. -/
def pySplitAux : List Char → List Char → List String
  | [], acc => if acc.isEmpty then [] else [⟨acc.reverse⟩]
  | c :: cs, acc =>
    if pyIsSpace c then
      if acc.isEmpty then pySplitAux cs [] else ⟨acc.reverse⟩ :: pySplitAux cs []
    else
      pySplitAux cs (c :: acc)

/-- Python `str.split()` with no separator. -/
def pySplit (s : String) : List String :=
  pySplitAux s.toList []

/-- Model of Django `User.set_password`: stores an injective tag of the raw
password (the real PBKDF2 hash is opaque; only the verification equation
matters to the code under study). -/
def hashPassword (pw : String) : String :=
  "pbkdf2_sha256$" ++ pw

/-- Model of Django `check_password` against a stored hash. -/
def checkPassword (raw stored : String) : Bool :=
  stored == hashPassword raw

/-! ## Data model (`django.contrib.auth.models.User`, `user_auth_app/models.py`,
`messenger_app/models.py`) -/

/-- `django.contrib.auth.models.User`: the fields the application reads or
writes.  `password` holds the stored hash. -/
structure DjUser where
  id : Nat
  username : String
  email : String
  firstName : String
  lastName : String
  password : String
  deriving DecidableEq

/-- `user_auth_app.models.UserProfile`: one-to-one with `User`
(`on_delete=CASCADE`), `email = EmailField()`, optional `tel` and `file`,
`created_at = DateTimeField(auto_now_add=True)` (modelled by the store clock). -/
structure UserProfile where
  id : Nat
  userId : Nat
  email : String
  tel : Option String
  file : Option String
  createdAt : Nat
  deriving DecidableEq

/-- `rest_framework.authtoken.models.Token`: opaque key, one per user. -/
structure AuthToken where
  userId : Nat
  key : String
  deriving DecidableEq

/-- `messenger_app.models.Chat`: `members = ManyToManyField(User, blank=True)`,
`title = CharField(max_length=100, null=False, blank=False)`. -/
structure Chat where
  id : Nat
  title : String
  members : List Nat
  deriving DecidableEq

/-- `messenger_app.models.Message`:
`chat = ForeignKey(Chat, on_delete=SET_NULL, null=True)`,
`author = ForeignKey(User, on_delete=SET_NULL, null=True)`,
`text = TextField(null=False, blank=True, default="")`. -/
structure Message where
  id : Nat
  chat : Option Nat
  author : Option Nat
  text : String
  deriving DecidableEq

/-- `messenger_app.models.Post`:
`chat = ForeignKey(Chat, on_delete=CASCADE, null=True, blank=True)`,
`author = ForeignKey(User, on_delete=CASCADE)` (non-null),
`title = CharField(max_length=200)`, `content = TextField()`,
`created_at = DateTimeField(auto_now_add=True)` (modelled by the store clock). -/
structure Post where
  id : Nat
  chat : Option Nat
  author : Nat
  title : String
  content : String
  createdAt : Nat
  deriving DecidableEq

/-- The relational store: the five tables plus autoincrement counters, a
nonce source for token keys and a clock for `auto_now_add` timestamps. -/
structure Store where
  users : List DjUser
  profiles : List UserProfile
  tokens : List AuthToken
  chats : List Chat
  messages : List Message
  posts : List Post
  nextUserId : Nat
  nextProfileId : Nat
  nextChatId : Nat
  nextPostId : Nat
  nextTokenNonce : Nat
  clock : Nat
  deriving DecidableEq

/-- The empty database. -/
def Store.init : Store :=
  { users := [], profiles := [], tokens := [], chats := [], messages := [],
    posts := [], nextUserId := 1, nextProfileId := 1, nextChatId := 1,
    nextPostId := 1, nextTokenNonce := 0, clock := 0 }

/-! ## Registration (`RegistrationSerializer`, `RegistrationView.post`) -/

/-- Raw registration request body. -/
structure RegInput where
  username : String
  email : String
  password : String
  repeatedPassword : String
  deriving DecidableEq

/-- The values `RegistrationSerializer.is_valid()` passes into `create` as
`validated_data`: every declared field is a DRF `CharField`/`EmailField`
with default `trim_whitespace=True`, so each value is stripped. -/
structure RegValidated where
  username : String
  email : String
  password : String
  repeatedPassword : String
  deriving DecidableEq

/-- Field-level validation of `RegistrationSerializer.is_valid()`:
`username = CharField(write_only=True, allow_blank=False)`,
`email = EmailField(required=True)` (format regex abstracted to
non-blankness), and the two password `CharField`s reject blank values. -/
def regFieldsValid (i : RegInput) : Bool :=
  pyStrip i.username != "" && pyStrip i.email != "" &&
    pyStrip i.password != "" && pyStrip i.repeatedPassword != ""

/-- The `validated_data` produced from a raw request. -/
def regValidated (i : RegInput) : RegValidated :=
  ⟨pyStrip i.username, pyStrip i.email, pyStrip i.password,
    pyStrip i.repeatedPassword⟩

/-- Error taxonomy of the registration/login endpoints. -/
inductive RegError where
  /-- `serializer.is_valid()` returned field errors. -/
  | fieldInvalid
  /-- `{'error': 'Passwords do not match'}` -/
  | passwordMismatch
  /-- `{'error': 'This email is already taken'}` -/
  | emailTaken
  /-- `{'error': 'This username is already taken'}` -/
  | usernameTaken
  /-- `CustomLogInView`: `{'error': 'Invalid username or password'}` -/
  | invalidCredentials
  deriving DecidableEq

/-- The `User` row built by `RegistrationSerializer.create`:
`username = validated_data.pop('username').title()`,
`names = username.split()`,
`first_name = names[0] if len(names) > 0 else ""`,
`last_name = " ".join(names[1:]) if len(names) > 1 else ""`,
`account.set_password(pw)`. -/
def regAccount (s : Store) (vd : RegValidated) : DjUser :=
  let username := pyTitle vd.username
  let names := pySplit username
  { id := s.nextUserId,
    username := username,
    email := vd.email,
    firstName := if names.length > 0 then names.headD "" else "",
    lastName := if names.length > 1 then String.intercalate " " (names.drop 1) else "",
    password := hashPassword vd.password }

/-- The row created by `UserProfile.objects.create(user=account)`: only
`user` is supplied, so Django fills `email` with the empty-string default of
a non-null `EmailField`, leaves `tel`/`file` null and stamps `created_at`. -/
def regProfile (s : Store) : UserProfile :=
  { id := s.nextProfileId, userId := s.nextUserId, email := "",
    tel := none, file := none, createdAt := s.clock }

/-- The store after the two writes of `RegistrationSerializer.create`
(`account.save()` then `UserProfile.objects.create(user=account)`). -/
def regApply (s : Store) (vd : RegValidated) : Store :=
  { s with
    users := s.users ++ [regAccount s vd],
    profiles := s.profiles ++ [regProfile s],
    nextUserId := s.nextUserId + 1,
    nextProfileId := s.nextProfileId + 1,
    clock := s.clock + 1 }

/-- `RegistrationSerializer.create`: the password-mismatch, e-mail-taken and
username-taken checks (in source order, each raising `ValidationError`
before any write), then the `User` and `UserProfile` writes. -/
def regCreate (s : Store) (vd : RegValidated) : Except RegError (Store × DjUser) :=
  if vd.password ≠ vd.repeatedPassword then
    .error .passwordMismatch
  else if s.users.any (fun u => u.email == vd.email) then
    .error .emailTaken
  else if s.users.any (fun u => u.username == pyTitle vd.username) then
    .error .usernameTaken
  else
    .ok (regApply s vd, regAccount s vd)

/-- `Token.objects.get_or_create(user=...)`: return the existing token of the
user, or mint a fresh key (random in the original; modelled by a nonce). -/
def tokenGetOrCreate (s : Store) (uid : Nat) : AuthToken × Store :=
  match s.tokens.find? (fun t => t.userId == uid) with
  | some t => (t, s)
  | none =>
    let t : AuthToken := ⟨uid, "tok-" ++ toString s.nextTokenNonce⟩
    (t, { s with tokens := s.tokens ++ [t], nextTokenNonce := s.nextTokenNonce + 1 })

/-- Response body of `RegistrationView.post` / `CustomLogInView.post`. -/
structure AuthResponse where
  status : Nat
  token : Option String
  username : Option String
  email : Option String
  userId : Option Nat
  error : Option RegError
  deriving DecidableEq

/-- A 400 response carrying an error body and no data fields. -/
def AuthResponse.bad (e : RegError) : AuthResponse :=
  { status := 400, token := none, username := none, email := none,
    userId := none, error := some e }

/-- `RegistrationView.post`: run the serializer; on success
`Token.objects.get_or_create` and the
`{token, username: f"{first} {last}".strip(), email, user_id}` body with
status 201; on any validation failure a 400 response and no store change. -/
def registrationPost (s : Store) (i : RegInput) : AuthResponse × Store :=
  if regFieldsValid i then
    match regCreate s (regValidated i) with
    | .ok (s1, account) =>
      let ts := tokenGetOrCreate s1 account.id
      ({ status := 201,
         token := some ts.1.key,
         username := some (pyStrip (account.firstName ++ " " ++ account.lastName)),
         email := some account.email,
         userId := some account.id,
         error := none }, ts.2)
    | .error e => (.bad e, s)
  else
    (.bad .fieldInvalid, s)

/-! ## Login (`UsernameAuthTokenSerializer`, `CustomLogInView.post`) -/

/-- Login request body.  The serializer's `username` field is a trimming
`CharField`; `password` has `trim_whitespace=False`. -/
structure LoginInput where
  username : String
  password : String
  deriving DecidableEq

/-- Django `ModelBackend.authenticate`: exact lookup by username, then
`check_password` of the submitted password against the stored hash. -/
def djAuthenticate (s : Store) (username password : String) : Option DjUser :=
  match s.users.find? (fun u => u.username == username) with
  | some u => if checkPassword password u.password then some u else none
  | none => none

/-- `CustomLogInView.post`: serializer validation (both fields non-empty and
`authenticate` succeeds), then `Token.objects.get_or_create` and a 200
response; both failure modes collapse to the view's own 400 body
`{'error': 'Invalid username or password'}` with no store change. -/
def loginPost (s : Store) (i : LoginInput) : AuthResponse × Store :=
  let username := pyStrip i.username
  if username == "" || i.password == "" then
    (.bad .invalidCredentials, s)
  else
    match djAuthenticate s username i.password with
    | some user =>
      let ts := tokenGetOrCreate s user.id
      ({ status := 200,
         token := some ts.1.key,
         username := some (pyStrip (user.firstName ++ " " ++ user.lastName)),
         email := some user.email,
         userId := some user.id,
         error := none }, ts.2)
    | none => (.bad .invalidCredentials, s)

/-! ## Deletion cascades (`on_delete` declarations of `messenger_app/models.py`,
`user_auth_app/models.py` and the authtoken app) -/

/-- Deleting a `Chat`: `Post.chat` has `on_delete=CASCADE`, so posts
referencing the chat are removed; `Message.chat` has `on_delete=SET_NULL`,
so messages referencing it keep existing with a nulled reference. -/
def deleteChat (s : Store) (cid : Nat) : Store :=
  { s with
    chats := s.chats.filter (fun c => c.id != cid),
    posts := s.posts.filter (fun p => p.chat != some cid),
    messages := s.messages.map
      (fun m => if m.chat == some cid then { m with chat := none } else m) }

/-- Deleting a `User`: `UserProfile.user` and `Token.user` are
`on_delete=CASCADE` one-to-ones, `Post.author` is `on_delete=CASCADE`,
`Message.author` is `on_delete=SET_NULL`, and the `Chat.members`
many-to-many rows for the user are removed. -/
def deleteUser (s : Store) (uid : Nat) : Store :=
  { s with
    users := s.users.filter (fun u => u.id != uid),
    profiles := s.profiles.filter (fun p => p.userId != uid),
    tokens := s.tokens.filter (fun t => t.userId != uid),
    chats := s.chats.map (fun c => { c with members := c.members.filter (fun m => m != uid) }),
    posts := s.posts.filter (fun p => p.author != uid),
    messages := s.messages.map
      (fun m => if m.author == some uid then { m with author := none } else m) }

/-! ## Post resource (`PostSerializer`, `PostViewSet`) -/

/-- Raw request body for a Post create/update.  `none` means the key is
absent from the payload; for `chat`, `some none` is an explicit JSON null
(the model field is `null=True`).  `author` and `createdAt` model client
attempts to set the read-only fields (`read_only_fields = ['author']` and
the `auto_now_add` timestamp). -/
structure PostInput where
  title : Option String
  content : Option String
  chat : Option (Option Nat)
  author : Option Nat
  createdAt : Option Nat
  deriving DecidableEq

/-- Field-scoped validation errors of `PostSerializer`. -/
inductive FieldError where
  /-- "This field is required." -/
  | required (field : String)
  /-- "This field may not be blank." -/
  | blank (field : String)
  /-- "Ensure this field has no more than ... characters." -/
  | tooLong (field : String)
  /-- `PrimaryKeyRelatedField`: the supplied pk resolves to no row. -/
  | doesNotExist (field : String) (pk : Nat)
  deriving DecidableEq

/-- The error detail string DRF attaches to a `PrimaryKeyRelatedField`
whose pk resolves to no row. -/
def FieldError.message : FieldError → String
  | .required _ => "This field is required."
  | .blank _ => "This field may not be blank."
  | .tooLong _ => "Ensure this field has no more than 200 characters."
  | .doesNotExist _ pk => "Invalid pk \"" ++ toString pk ++ "\" - object does not exist."

/-- The writable part of `validated_data` for `PostSerializer`
(`fields = '__all__'` minus `read_only_fields = ['author']` and the
read-only `auto_now_add` field `created_at`): `title`, `content`, `chat`. -/
structure PostValidated where
  title : Option String
  content : Option String
  chat : Option (Option Nat)
  deriving DecidableEq

/-- Validation of the `title` field of `PostSerializer`: a trimming
`CharField(max_length=200, allow_blank=False)`, required unless the run is
partial (PATCH). -/
def titleFieldErrors (isPatch : Bool) (title : Option String) : List FieldError :=
  match title with
  | none => if isPatch then [] else [FieldError.required "title"]
  | some t =>
    if pyStrip t = "" then [FieldError.blank "title"]
    else if (pyStrip t).length > 200 then [FieldError.tooLong "title"]
    else []

/-- Validation of the `content` field of `PostSerializer`: a trimming
`CharField(allow_blank=False)`, required unless the run is partial. -/
def contentFieldErrors (isPatch : Bool) (content : Option String) : List FieldError :=
  match content with
  | none => if isPatch then [] else [FieldError.required "content"]
  | some c => if pyStrip c = "" then [FieldError.blank "content"] else []

/-- Validation of the `chat` field of `PostSerializer`:
`PrimaryKeyRelatedField(queryset=Chat.objects.all(), required=False,
allow_null=True)` — a supplied pk must resolve to an existing `Chat`. -/
def chatFieldErrors (s : Store) (chat : Option (Option Nat)) : List FieldError :=
  match chat with
  | none => []
  | some none => []
  | some (some cid) =>
    if s.chats.any (fun c => c.id == cid) then [] else [FieldError.doesNotExist "chat" cid]

/-- `PostSerializer.is_valid()`: the errors of all fields are collected,
as in DRF's error dict; with no error the validated (trimmed) data is
produced. -/
def postRunValidation (s : Store) (isPatch : Bool) (i : PostInput) :
    Except (List FieldError) PostValidated :=
  let errs := titleFieldErrors isPatch i.title ++ contentFieldErrors isPatch i.content ++
    chatFieldErrors s i.chat
  if errs.isEmpty then
    .ok ⟨i.title.map pyStrip, i.content.map pyStrip, i.chat⟩
  else
    .error errs

/-- Response of a Post endpoint call: HTTP status, the serialized single
body (`PostSerializer` with `fields = '__all__'`, so the whole row), the
list body for `list`, and the validation error dict. -/
structure PostResponse where
  status : Nat
  post : Option Post
  posts : List Post
  errors : List FieldError
  deriving DecidableEq

/-- A bare response with only a status code. -/
def PostResponse.code (n : Nat) : PostResponse :=
  { status := n, post := none, posts := [], errors := [] }

/-- A 400 response carrying the serializer's error dict. -/
def PostResponse.invalid (errs : List FieldError) : PostResponse :=
  { status := 400, post := none, posts := [], errors := errs }

/-- `PostViewSet` create: validate, then `perform_create` saves with
`author=self.request.user`, overriding any client-supplied author; `chat`
defaults to null when absent, `created_at` is stamped by `auto_now_add`. -/
def postCreate (s : Store) (uid : Nat) (i : PostInput) : PostResponse × Store :=
  match postRunValidation s false i with
  | .error errs => (.invalid errs, s)
  | .ok vd =>
    let p : Post :=
      { id := s.nextPostId,
        chat := vd.chat.getD none,
        author := uid,
        title := vd.title.getD "",
        content := vd.content.getD "",
        createdAt := s.clock }
    ({ status := 201, post := some p, posts := [], errors := [] },
     { s with posts := s.posts ++ [p], nextPostId := s.nextPostId + 1,
              clock := s.clock + 1 })

/-- `PostViewSet` update (PUT when `isPatch = false`, PATCH when true):
`get_object_or_404`, validation, then the instance is updated with exactly
the keys of `validated_data`; `author` and `created_at` are read-only and
never appear there. -/
def postUpdate (s : Store) (pid : Nat) (isPatch : Bool) (i : PostInput) :
    PostResponse × Store :=
  match s.posts.find? (fun p => p.id == pid) with
  | none => (.code 404, s)
  | some old =>
    match postRunValidation s isPatch i with
    | .error errs => (.invalid errs, s)
    | .ok vd =>
      let updated : Post :=
        { old with
          title := vd.title.getD old.title,
          content := vd.content.getD old.content,
          chat := match vd.chat with | none => old.chat | some c => c }
      ({ status := 200, post := some updated, posts := [], errors := [] },
       { s with posts := s.posts.map (fun p => if p.id == pid then updated else p) })

/-- `PostViewSet` destroy: `get_object_or_404` then delete (no other table
references Post). -/
def postDelete (s : Store) (pid : Nat) : PostResponse × Store :=
  match s.posts.find? (fun p => p.id == pid) with
  | none => (.code 404, s)
  | some _ =>
    (.code 204, { s with posts := s.posts.filter (fun p => p.id != pid) })

/-- `PostViewSet` list: all Posts. -/
def postList (s : Store) : PostResponse :=
  { status := 200, post := none, posts := s.posts, errors := [] }

/-- `PostViewSet` retrieve. -/
def postRetrieve (s : Store) (pid : Nat) : PostResponse :=
  match s.posts.find? (fun p => p.id == pid) with
  | none => .code 404
  | some p => { status := 200, post := some p, posts := [], errors := [] }

/-- The six actions the `SimpleRouter` exposes for `PostViewSet`. -/
inductive PostAction where
  | list
  | retrieve (pid : Nat)
  | create (body : PostInput)
  | put (pid : Nat) (body : PostInput)
  | patch (pid : Nat) (body : PostInput)
  | delete (pid : Nat)
  deriving DecidableEq

/-- A request to a Post endpoint: the identity resolved from the
`Authorization: Token ...` header (none when unauthenticated) and the
action. -/
structure PostRequest where
  auth : Option Nat
  action : PostAction
  deriving DecidableEq

/-- Dispatcher for the Post endpoints.  Modelled from the spec: the
project settings module (not under `src/`) sets the default permission
policy that makes every `PostViewSet` action require authentication — an
unauthenticated request is answered 401 before any handler runs, as the
repository's own view tests assert. -/
def postEndpoint (s : Store) (req : PostRequest) : PostResponse × Store :=
  match req.auth with
  | none => (.code 401, s)
  | some uid =>
    match req.action with
    | .list => (postList s, s)
    | .retrieve pid => (postRetrieve s pid, s)
    | .create body => postCreate s uid body
    | .put pid body => postUpdate s pid false body
    | .patch pid body => postUpdate s pid true body
    | .delete pid => postDelete s pid

/-! ## Chat serializer (`ChatSerializer`) -/

/-- The value of a `Meta.exclude` attribute as Python sees it: either a
string (what a parenthesized expression like `("id")` evaluates to) or an
actual tuple/list of field names. -/
inductive MetaExclude where
  | pyStr (s : String)
  | pyTuple (fields : List String)
  deriving DecidableEq

/-- `ChatSerializer.Meta.exclude = ("id")` — in Python a parenthesized
string, not the one-element tuple `("id",)`. -/
def chatSerializerExclude : MetaExclude := .pyStr "id"

/-- The message of the `TypeError` DRF's `ModelSerializer.get_field_names`
raises when `Meta.exclude` is not a list or tuple. -/
def drfExcludeTypeError : String :=
  "The `exclude` option must be a list or tuple. Got str."

/-- All model fields of `Chat` in declaration order (pk first). -/
def chatModelFields : List String := ["id", "members", "title"]

/-- `ModelSerializer.get_field_names` restricted to what `ChatSerializer`
exercises: reject a non-tuple `exclude` with a `TypeError`, otherwise drop
the excluded names from the model's field list. -/
def chatGetFieldNames (ex : MetaExclude) : Except String (List String) :=
  match ex with
  | .pyStr _ => .error drfExcludeTypeError
  | .pyTuple fields => .ok (chatModelFields.filter (fun f => !fields.contains f))

/-- Serialized representation of a `Chat` (only produced when field-name
resolution succeeded). -/
structure ChatSerialized where
  title : String
  members : List Nat
  deriving DecidableEq

/-- Raw request body for a Chat create; `id` models a client attempt to
choose the primary key. -/
structure ChatInput where
  id : Option Nat
  title : Option String
  members : Option (List Nat)
  deriving DecidableEq

/-- Serializing a `Chat` with `ChatSerializer`: field-name resolution runs
first (and, with the source's `exclude`, raises); on a well-formed
`exclude` the body holds every non-excluded field. -/
def chatSerialize (c : Chat) : Except String ChatSerialized :=
  match chatGetFieldNames chatSerializerExclude with
  | .error e => .error e
  | .ok _ => .ok ⟨c.title, c.members⟩

/-- Creating a `Chat` through `ChatSerializer`: field-name resolution runs
first (and, with the source's `exclude`, raises before any validation); the
never-reached success path validates the non-blank title, ignores any
client-supplied `id` and assigns the next fresh id. -/
def chatCreate (s : Store) (i : ChatInput) : Except String (Chat × Store) :=
  match chatGetFieldNames chatSerializerExclude with
  | .error e => .error e
  | .ok _ =>
    match i.title with
    | none => .error "title: This field is required."
    | some t =>
      if pyStrip t = "" then .error "title: This field may not be blank."
      else
        let c : Chat := { id := s.nextChatId, title := pyStrip t,
                          members := i.members.getD [] }
        .ok (c, { s with chats := s.chats ++ [c], nextChatId := s.nextChatId + 1 })

/-- Modelled from the spec: the Chat Resource Service create endpoint — its
view and routing are not under `src/` (only `ChatSerializer` is).  Per the
spec's §4.4 contract: `title` required, non-blank, non-null; `members` an
optional list of user ids; the server always assigns a fresh identifier and
ignores any client-supplied id.  A request with a blank/absent title is
rejected and writes nothing. -/
def chatCreateSpec (s : Store) (i : ChatInput) : Store :=
  match i.title with
  | none => s
  | some t =>
    if pyStrip t = "" then s
    else
      { s with
        chats := s.chats ++ [{ id := s.nextChatId, title := pyStrip t,
                               members := i.members.getD [] }],
        nextChatId := s.nextChatId + 1 }

/-! ## Reachable states and store invariants -/

/-- Store states reachable from the empty database through the operations
the backend exposes: registration, login, the six Post endpoint actions,
Chat creation (per the spec's Chat Resource Service contract, its view not
being under `src/`), Chat deletion and User deletion. -/
inductive Reachable : Store → Prop
  | init : Reachable Store.init
  | registration (s : Store) (i : RegInput) :
      Reachable s → Reachable (registrationPost s i).2
  | login (s : Store) (i : LoginInput) :
      Reachable s → Reachable (loginPost s i).2
  | postReq (s : Store) (req : PostRequest) :
      Reachable s → Reachable (postEndpoint s req).2
  | chatNew (s : Store) (i : ChatInput) :
      Reachable s → Reachable (chatCreateSpec s i)
  | chatDel (s : Store) (cid : Nat) :
      Reachable s → Reachable (deleteChat s cid)
  | userDel (s : Store) (uid : Nat) :
      Reachable s → Reachable (deleteUser s uid)

/-- The store invariant that actually holds on reachable states: required
title/username/email fields of `Chat`, `Post` and `User` rows are never the
empty string, and usernames and e-mails are unique across `User` rows. -/
def StoreInv (s : Store) : Prop :=
  (∀ u ∈ s.users, u.username ≠ "" ∧ u.email ≠ "") ∧
  s.users.Pairwise (fun a b => a.username ≠ b.username) ∧
  s.users.Pairwise (fun a b => a.email ≠ b.email) ∧
  (∀ c ∈ s.chats, c.title ≠ "") ∧
  (∀ p ∈ s.posts, p.title ≠ "")

instance (s : Store) : Decidable (StoreInv s) := by
  unfold StoreInv; infer_instance

/-- Id-counter sanity of a store: every row that references a user id (or
is one) stays below the autoincrement counter. -/
def StoreWF (s : Store) : Prop :=
  (∀ u ∈ s.users, u.id < s.nextUserId) ∧
  (∀ pr ∈ s.profiles, pr.userId < s.nextUserId) ∧
  (∀ t ∈ s.tokens, t.userId < s.nextUserId)

instance (s : Store) : Decidable (StoreWF s) := by
  unfold StoreWF; infer_instance

/-! ## Helper lemmas -/

theorem pyTitleAux_eq_nil {b : Bool} {l : List Char} : pyTitleAux b l = [] ↔ l = [] := by
  cases l with
  | nil => simp [pyTitleAux]
  | cons c cs => simp only [pyTitleAux]; split <;> simp

theorem pyTitle_ne_empty {x : String} (h : x ≠ "") : pyTitle x ≠ "" := by
  intro hc
  apply h
  have hdata := congrArg String.data hc
  have hnil : x.toList = [] := pyTitleAux_eq_nil.mp hdata
  cases x with
  | mk d =>
    have : d = [] := hnil
    rw [this]

/-- Inversion of a successful `RegistrationSerializer.create`: the three
checks passed and the result is the two-write store update. -/
theorem regCreate_ok_inv {s : Store} {vd : RegValidated} {s' : Store} {u : DjUser}
    (h : regCreate s vd = .ok (s', u)) :
    vd.password = vd.repeatedPassword ∧
    (∀ w ∈ s.users, w.email ≠ vd.email) ∧
    (∀ w ∈ s.users, w.username ≠ pyTitle vd.username) ∧
    s' = regApply s vd ∧ u = regAccount s vd := by
  unfold regCreate at h
  split at h
  · cases h
  · split at h
    · cases h
    · split at h
      · cases h
      · rename_i h1 h2 h3
        have h' : (regApply s vd, regAccount s vd) = (s', u) := by
          injection h
        refine ⟨not_not.mp h1, ?_, ?_, (congrArg Prod.fst h').symm,
          (congrArg Prod.snd h').symm⟩
        · intro w hw he
          exact h2 (List.any_eq_true.mpr ⟨w, hw, by simp [he]⟩)
        · intro w hw he
          exact h3 (List.any_eq_true.mpr ⟨w, hw, by simp [he]⟩)

/-- A request hitting one of the three `create`-time checks makes
`RegistrationSerializer.create` raise. -/
theorem regCreate_error_of_invalid (s : Store) (vd : RegValidated)
    (h : vd.password ≠ vd.repeatedPassword ∨ (∃ u ∈ s.users, u.email = vd.email) ∨
        (∃ u ∈ s.users, u.username = pyTitle vd.username)) :
    ∃ e, regCreate s vd = .error e := by
  cases he : regCreate s vd with
  | error e => exact ⟨e, rfl⟩
  | ok pair =>
    exfalso
    obtain ⟨p1, p2⟩ := pair
    obtain ⟨hpw, hemail, huser, -, -⟩ := regCreate_ok_inv he
    rcases h with h | ⟨u, hu, hh⟩ | ⟨u, hu, hh⟩
    · exact h hpw
    · exact hemail u hu hh
    · exact huser u hu hh

/-! ## Claim theorems -/

/-- Claim C1: every registration request that fails validation (password
differs from repeated password, or the e-mail is already present among
Users, or the title-cased username is already present among Users) is
rejected with a 400 error and performs no store writes: the store —
hence every record count — is unchanged and no User, UserProfile or
Token is created.  The conditions are stated on the serializer's
validated (whitespace-trimmed) field values, which are what the source's
checks compare. -/
theorem C1_registration_failure_no_writes (s : Store) (i : RegInput)
    (h : (regValidated i).password ≠ (regValidated i).repeatedPassword ∨
        (∃ u ∈ s.users, u.email = (regValidated i).email) ∨
        (∃ u ∈ s.users, u.username = pyTitle (regValidated i).username)) :
    (registrationPost s i).1.status = 400 ∧ (registrationPost s i).2 = s := by
  unfold registrationPost
  by_cases hv : regFieldsValid i = true
  · rw [if_pos hv]
    obtain ⟨e, he⟩ := regCreate_error_of_invalid s (regValidated i) h
    rw [he]
    exact ⟨rfl, rfl⟩
  · rw [if_neg hv]
    exact ⟨rfl, rfl⟩

/-- Witness for C1: a concrete mismatched-password request against the
empty store is rejected with 400 and leaves the store untouched. -/
theorem C1_registration_failure_no_writes_witness :
    (registrationPost Store.init ⟨"bob", "b@x.com", "p1", "p2"⟩).1.status = 400 ∧
    (registrationPost Store.init ⟨"bob", "b@x.com", "p1", "p2"⟩).2 = Store.init :=
  C1_registration_failure_no_writes Store.init ⟨"bob", "b@x.com", "p1", "p2"⟩
    (Or.inl (by decide))

/-- Claim C3: deleting a Chat removes every Post referencing it and keeps
every other Post, while its Messages survive (count unchanged) with the
chat reference nulled; deleting a User removes every Post they authored
and keeps every other Post, while their Messages survive (count
unchanged) with the author reference nulled. -/
theorem C3_delete_cascades (s : Store) (cid uid : Nat) (p : Post) (m : Message)
    (hp : p ∈ s.posts) (hm : m ∈ s.messages) :
    ((p.chat = some cid → p ∉ (deleteChat s cid).posts) ∧
     (p.chat ≠ some cid → p ∈ (deleteChat s cid).posts) ∧
     (m.chat = some cid → { m with chat := none } ∈ (deleteChat s cid).messages) ∧
     (m.chat ≠ some cid → m ∈ (deleteChat s cid).messages) ∧
     (deleteChat s cid).messages.length = s.messages.length) ∧
    ((p.author = uid → p ∉ (deleteUser s uid).posts) ∧
     (p.author ≠ uid → p ∈ (deleteUser s uid).posts) ∧
     (m.author = some uid → { m with author := none } ∈ (deleteUser s uid).messages) ∧
     (m.author ≠ some uid → m ∈ (deleteUser s uid).messages) ∧
     (deleteUser s uid).messages.length = s.messages.length) := by
  constructor
  · refine ⟨?_, ?_, ?_, ?_, ?_⟩
    · intro hc hmem
      simp only [deleteChat, List.mem_filter] at hmem
      rcases hmem with ⟨-, hne⟩
      rw [bne_iff_ne] at hne
      exact hne hc
    · intro hc
      simp only [deleteChat, List.mem_filter]
      exact ⟨hp, bne_iff_ne.mpr hc⟩
    · intro hc
      simp only [deleteChat, List.mem_map]
      exact ⟨m, hm, by simp [hc]⟩
    · intro hc
      simp only [deleteChat, List.mem_map]
      exact ⟨m, hm, by simp [beq_eq_false_iff_ne.mpr hc]⟩
    · simp [deleteChat]
  · refine ⟨?_, ?_, ?_, ?_, ?_⟩
    · intro hc hmem
      simp only [deleteUser, List.mem_filter] at hmem
      rcases hmem with ⟨-, hne⟩
      rw [bne_iff_ne] at hne
      exact hne hc
    · intro hc
      simp only [deleteUser, List.mem_filter]
      exact ⟨hp, bne_iff_ne.mpr hc⟩
    · intro hc
      simp only [deleteUser, List.mem_map]
      exact ⟨m, hm, by simp [hc]⟩
    · intro hc
      simp only [deleteUser, List.mem_map]
      exact ⟨m, hm, by simp [beq_eq_false_iff_ne.mpr hc]⟩
    · simp [deleteUser]

/-- Witness for C3 at a concrete store: one chat, one post in it, one
message in it, plus a second user's material. -/
theorem C3_delete_cascades_witness :
    let s : Store :=
      { users := [⟨1, "Alice", "a@x.com", "Alice", "", "pw"⟩],
        profiles := [], tokens := [],
        chats := [⟨1, "General", []⟩],
        messages := [⟨1, some 1, some 1, "hi"⟩],
        posts := [⟨1, some 1, 1, "T", "C", 0⟩],
        nextUserId := 2, nextProfileId := 1, nextChatId := 2, nextPostId := 2,
        nextTokenNonce := 0, clock := 1 }
    ((⟨1, some 1, 1, "T", "C", 0⟩ : Post).chat = some 1 →
        (⟨1, some 1, 1, "T", "C", 0⟩ : Post) ∉ (deleteChat s 1).posts) ∧
    ((⟨1, some 1, 1, "T", "C", 0⟩ : Post).chat ≠ some 1 →
        (⟨1, some 1, 1, "T", "C", 0⟩ : Post) ∈ (deleteChat s 1).posts) ∧
    ((⟨1, some 1, some 1, "hi"⟩ : Message).chat = some 1 →
        ({ (⟨1, some 1, some 1, "hi"⟩ : Message) with chat := none } ∈
          (deleteChat s 1).messages)) ∧
    ((⟨1, some 1, some 1, "hi"⟩ : Message).chat ≠ some 1 →
        (⟨1, some 1, some 1, "hi"⟩ : Message) ∈ (deleteChat s 1).messages) ∧
    (deleteChat s 1).messages.length = s.messages.length :=
  (C3_delete_cascades _ 1 1 ⟨1, some 1, 1, "T", "C", 0⟩ ⟨1, some 1, some 1, "hi"⟩
    (by decide) (by decide)).1

/-- Claim C4 (code bug): `ChatSerializer.Meta.exclude = ("id")` is the
string `"id"`, not a tuple, so DRF's field-name resolution raises a
`TypeError` the moment the serializer is used — serialization never
produces a body excluding `id`, and the repository's own test input
`{'title': 'Another Chat', 'id': 999}` (whose comment says the option was
fixed to `("id",)`) errors instead of creating a chat. -/
theorem C4_chat_serializer_raises :
    chatSerialize { id := 1, title := "General Chat", members := [] } =
      .error drfExcludeTypeError ∧
    chatCreate Store.init { id := some 999, title := some "Another Chat", members := none } =
      .error drfExcludeTypeError ∧
    chatSerializerExclude = .pyStr "id" :=
  ⟨rfl, rfl, rfl⟩

/-- Claim C7: an unauthenticated request to any Post endpoint action
(list, retrieve, create, update, partial update, delete) is answered 401
and leaves the store unchanged. -/
theorem C7_unauthenticated_401 (s : Store) (req : PostRequest) (h : req.auth = none) :
    (postEndpoint s req).1.status = 401 ∧ (postEndpoint s req).2 = s := by
  obtain ⟨a, act⟩ := req
  have ha : a = none := h
  subst ha
  exact ⟨rfl, rfl⟩

/-- Witness for C7: a concrete unauthenticated list request. -/
theorem C7_unauthenticated_401_witness :
    (postEndpoint Store.init ⟨none, PostAction.list⟩).1.status = 401 ∧
    (postEndpoint Store.init ⟨none, PostAction.list⟩).2 = Store.init :=
  C7_unauthenticated_401 Store.init ⟨none, PostAction.list⟩ rfl

/-- Claim C9: a successful `RegistrationSerializer.create` stores the
title-cased username and derives the name fields by whitespace-splitting
it: the first token becomes the first name, the remaining tokens joined
by single spaces become the last name, and when no token remains the last
name is the empty string. -/
theorem C9_username_normalization (s : Store) (vd : RegValidated) (s' : Store) (u : DjUser)
    (h : regCreate s vd = .ok (s', u)) :
    u ∈ s'.users ∧
    u.username = pyTitle vd.username ∧
    u.firstName = (pySplit (pyTitle vd.username)).headD "" ∧
    u.lastName = String.intercalate " " ((pySplit (pyTitle vd.username)).drop 1) ∧
    ((pySplit (pyTitle vd.username)).drop 1 = [] → u.lastName = "") := by
  obtain ⟨-, -, -, hs, hu⟩ := regCreate_ok_inv h
  subst hs; subst hu
  refine ⟨by simp [regApply, regAccount], rfl, ?_, ?_, ?_⟩
  · show (if (pySplit (pyTitle vd.username)).length > 0 then
        (pySplit (pyTitle vd.username)).headD "" else "") = _
    by_cases hl : (pySplit (pyTitle vd.username)).length > 0
    · rw [if_pos hl]
    · rw [if_neg hl]
      have : pySplit (pyTitle vd.username) = [] :=
        List.length_eq_zero.mp (by omega)
      rw [this]; rfl
  · show (if (pySplit (pyTitle vd.username)).length > 1 then
        String.intercalate " " ((pySplit (pyTitle vd.username)).drop 1) else "") = _
    by_cases hl : (pySplit (pyTitle vd.username)).length > 1
    · rw [if_pos hl]
    · rw [if_neg hl]
      have hdrop : (pySplit (pyTitle vd.username)).drop 1 = [] := by
        apply List.length_eq_zero.mp
        rw [List.length_drop]
        omega
      rw [hdrop]; rfl
  · intro hdrop
    show (if (pySplit (pyTitle vd.username)).length > 1 then
        String.intercalate " " ((pySplit (pyTitle vd.username)).drop 1) else "") = ""
    by_cases hl : (pySplit (pyTitle vd.username)).length > 1
    · exfalso
      have := congrArg List.length hdrop
      rw [List.length_drop] at this
      simp at this
      omega
    · rw [if_neg hl]

/-- Witness for C9 at a concrete three-token username. -/
theorem C9_username_normalization_witness :
    regAccount Store.init ⟨"bob smith jones", "b@x.com", "p", "p"⟩ ∈
      (regApply Store.init ⟨"bob smith jones", "b@x.com", "p", "p"⟩).users ∧
    (regAccount Store.init ⟨"bob smith jones", "b@x.com", "p", "p"⟩).username =
      pyTitle "bob smith jones" ∧
    (regAccount Store.init ⟨"bob smith jones", "b@x.com", "p", "p"⟩).firstName =
      (pySplit (pyTitle "bob smith jones")).headD "" ∧
    (regAccount Store.init ⟨"bob smith jones", "b@x.com", "p", "p"⟩).lastName =
      String.intercalate " " ((pySplit (pyTitle "bob smith jones")).drop 1) ∧
    ((pySplit (pyTitle "bob smith jones")).drop 1 = [] →
      (regAccount Store.init ⟨"bob smith jones", "b@x.com", "p", "p"⟩).lastName = "") :=
  C9_username_normalization Store.init ⟨"bob smith jones", "b@x.com", "p", "p"⟩ _ _ rfl

/-- Inversion of a successful `PostSerializer.is_valid()` run: the
validated data is the trimmed input, a supplied title is non-blank after
trimming, and on a non-partial run the title was supplied. -/
theorem postRunValidation_ok_inv {s : Store} {b : Bool} {i : PostInput} {vd : PostValidated}
    (h : postRunValidation s b i = .ok vd) :
    vd.title = i.title.map pyStrip ∧ vd.content = i.content.map pyStrip ∧
    vd.chat = i.chat ∧
    (∀ t, i.title = some t → pyStrip t ≠ "") ∧
    (b = false → i.title ≠ none) := by
  simp only [postRunValidation] at h
  split at h
  · rename_i hEmpty
    rw [List.isEmpty_iff, List.append_eq_nil, List.append_eq_nil] at hEmpty
    obtain ⟨⟨ht, -⟩, -⟩ := hEmpty
    injection h with h'
    refine ⟨by rw [← h'], by rw [← h'], by rw [← h'], ?_, ?_⟩
    · intro t hsome hblank
      rw [hsome] at ht
      simp [titleFieldErrors, hblank] at ht
    · intro hb hnone
      rw [hnone, hb] at ht
      simp [titleFieldErrors] at ht
  · cases h

/-- A Post payload whose `chat` pk resolves to no `Chat` always fails
`PostSerializer.is_valid()` with a `chat`-scoped does-not-exist error. -/
theorem postRunValidation_bad_chat (s : Store) (b : Bool) (i : PostInput) (cid : Nat)
    (hchat : i.chat = some (some cid))
    (habs : ∀ c ∈ s.chats, c.id ≠ cid) :
    ∃ errs, postRunValidation s b i = .error errs ∧
      FieldError.doesNotExist "chat" cid ∈ errs := by
  have hany : ¬ (s.chats.any (fun c => c.id == cid) = true) := by
    rw [List.any_eq_true]
    rintro ⟨c, hc, hbeq⟩
    exact habs c hc (by simpa using hbeq)
  have hc : chatFieldErrors s i.chat = [FieldError.doesNotExist "chat" cid] := by
    rw [hchat]
    simp only [chatFieldErrors]
    rw [if_neg hany]
  refine ⟨titleFieldErrors b i.title ++ contentFieldErrors b i.content ++
    chatFieldErrors s i.chat, ?_, ?_⟩
  · unfold postRunValidation
    rw [if_neg]
    rw [List.isEmpty_iff, List.append_eq_nil]
    rintro ⟨-, hnil⟩
    rw [hc] at hnil
    cases hnil
  · rw [hc]
    simp

/-- `Token.objects.get_or_create` touches no table but the token table. -/
theorem tokenGetOrCreate_frame (x : Store) (u : Nat) :
    (tokenGetOrCreate x u).2.users = x.users ∧
    (tokenGetOrCreate x u).2.profiles = x.profiles ∧
    (tokenGetOrCreate x u).2.chats = x.chats ∧
    (tokenGetOrCreate x u).2.posts = x.posts ∧
    (tokenGetOrCreate x u).2.messages = x.messages := by
  cases hf : x.tokens.find? (fun t => t.userId == u) with
  | none => simp [tokenGetOrCreate, hf]
  | some t => simp [tokenGetOrCreate, hf]

/-- Claim C2 counterexample: register username "alice" (stored title-cased
as "Alice"), then log in with the very same credentials
("alice"/"p1") — authentication is an exact username lookup, so the login
is rejected with 400 and returns no token, while login with the stored
"Alice" succeeds. -/
theorem C2_same_credentials_login_cex :
    (registrationPost Store.init ⟨"alice", "a@x.com", "p1", "p1"⟩).1.status = 201 ∧
    (registrationPost Store.init ⟨"alice", "a@x.com", "p1", "p1"⟩).1.token =
      some "tok-0" ∧
    (loginPost (registrationPost Store.init ⟨"alice", "a@x.com", "p1", "p1"⟩).2
        ⟨"alice", "p1"⟩).1.status = 400 ∧
    (loginPost (registrationPost Store.init ⟨"alice", "a@x.com", "p1", "p1"⟩).2
        ⟨"alice", "p1"⟩).1.token = none ∧
    (loginPost (registrationPost Store.init ⟨"alice", "a@x.com", "p1", "p1"⟩).2
        ⟨"Alice", "p1"⟩).1.status = 200 := by
  decide

/-- Claim C2 (amended): after a successful registration exactly one User
with the registered e-mail and exactly one UserProfile for that user
exist, a Token for the user is resolvable and carries the responded key,
and any subsequent login with the account's stored credentials — the
title-cased username together with the validated registration password —
returns 200 with the very same token key and leaves the store unchanged
(so repeated logins keep returning that key). -/
theorem C2_registration_effects_and_login (s : Store) (i : RegInput)
    (hwf : StoreWF s) (h201 : (registrationPost s i).1.status = 201) :
    ∃ uid tok,
      (registrationPost s i).1.userId = some uid ∧
      (registrationPost s i).1.token = some tok ∧
      ((registrationPost s i).2.users.filter
          (fun u => u.email == (regValidated i).email)).length = 1 ∧
      ((registrationPost s i).2.profiles.filter
          (fun p => p.userId == uid)).length = 1 ∧
      (∃ t ∈ (registrationPost s i).2.tokens, t.userId = uid ∧ t.key = tok) ∧
      (∀ li : LoginInput,
        pyStrip li.username = pyTitle (regValidated i).username →
        li.password = (regValidated i).password →
        (loginPost (registrationPost s i).2 li).1.status = 200 ∧
        (loginPost (registrationPost s i).2 li).1.token = some tok ∧
        (loginPost (registrationPost s i).2 li).2 = (registrationPost s i).2) := by
  by_cases hv : regFieldsValid i = true
  case neg => simp [registrationPost, hv, AuthResponse.bad] at h201
  obtain ⟨⟨hvu, hve⟩, hvp, hvr⟩ : (pyStrip i.username ≠ "" ∧ pyStrip i.email ≠ "") ∧
      pyStrip i.password ≠ "" ∧ pyStrip i.repeatedPassword ≠ "" := by
    simpa [regFieldsValid, Bool.and_eq_true, bne_iff_ne, and_assoc] using hv
  cases hc : regCreate s (regValidated i) with
  | error e => simp [registrationPost, hv, hc, AuthResponse.bad] at h201
  | ok pair =>
    obtain ⟨s1, account⟩ := pair
    obtain ⟨hpw, hemail, huser, hs1, hacc⟩ := regCreate_ok_inv hc
    subst hs1; subst hacc
    -- no token exists yet for the fresh user id
    have hfindtok : (regApply s (regValidated i)).tokens.find?
        (fun t => t.userId == (regAccount s (regValidated i)).id) = none := by
      apply List.find?_eq_none.mpr
      intro t ht
      have hlt : t.userId < s.nextUserId := hwf.2.2 t ht
      simp only [beq_iff_eq]
      show ¬ t.userId = s.nextUserId
      omega
    have htok : tokenGetOrCreate (regApply s (regValidated i))
        (regAccount s (regValidated i)).id =
        (⟨(regAccount s (regValidated i)).id,
            "tok-" ++ toString (regApply s (regValidated i)).nextTokenNonce⟩,
         { regApply s (regValidated i) with
             tokens := (regApply s (regValidated i)).tokens ++
               [⟨(regAccount s (regValidated i)).id,
                 "tok-" ++ toString (regApply s (regValidated i)).nextTokenNonce⟩],
             nextTokenNonce := (regApply s (regValidated i)).nextTokenNonce + 1 }) := by
      simp [tokenGetOrCreate, hfindtok]
    have hreg : registrationPost s i =
        ({ status := 201,
           token := some ("tok-" ++ toString (regApply s (regValidated i)).nextTokenNonce),
           username := some (pyStrip ((regAccount s (regValidated i)).firstName ++ " " ++
             (regAccount s (regValidated i)).lastName)),
           email := some (regAccount s (regValidated i)).email,
           userId := some (regAccount s (regValidated i)).id,
           error := none },
         { regApply s (regValidated i) with
             tokens := (regApply s (regValidated i)).tokens ++
               [⟨(regAccount s (regValidated i)).id,
                 "tok-" ++ toString (regApply s (regValidated i)).nextTokenNonce⟩],
             nextTokenNonce := (regApply s (regValidated i)).nextTokenNonce + 1 }) := by
      simp only [registrationPost, hv, if_true, hc, htok]
    refine ⟨(regAccount s (regValidated i)).id,
      "tok-" ++ toString (regApply s (regValidated i)).nextTokenNonce,
      by rw [hreg], by rw [hreg], ?_, ?_, ?_, ?_⟩
    · rw [hreg]
      show (((regApply s (regValidated i)).users).filter
        (fun u => u.email == (regValidated i).email)).length = 1
      simp only [regApply, List.filter_append]
      rw [List.filter_eq_nil_iff.mpr (fun w hw => by
        simp only [beq_iff_eq]; exact hemail w hw)]
      simp [regAccount]
    · rw [hreg]
      show (((regApply s (regValidated i)).profiles).filter
        (fun p => p.userId == (regAccount s (regValidated i)).id)).length = 1
      simp only [regApply, List.filter_append]
      rw [List.filter_eq_nil_iff.mpr (fun pr hpr => by
        have hlt : pr.userId < s.nextUserId := hwf.2.1 pr hpr
        simp only [beq_iff_eq]
        show ¬ pr.userId = s.nextUserId
        omega)]
      simp [regProfile, regAccount]
    · rw [hreg]
      refine ⟨⟨(regAccount s (regValidated i)).id,
        "tok-" ++ toString (regApply s (regValidated i)).nextTokenNonce⟩, ?_, rfl, rfl⟩
      simp
    · intro li hname hpass
      have husr : pyTitle (regValidated i).username ≠ "" := pyTitle_ne_empty hvu
      have hcond : (pyStrip li.username == "" || li.password == "") = false := by
        rw [hname, hpass]
        simp only [Bool.or_eq_false_iff, beq_eq_false_iff_ne, ne_eq]
        exact ⟨husr, hvp⟩
      -- authentication resolves the freshly stored account
      have hfind1 : ((regApply s (regValidated i)).users).find?
          (fun u => u.username == pyStrip li.username) =
          some (regAccount s (regValidated i)) := by
        simp only [regApply]
        rw [List.find?_append]
        rw [List.find?_eq_none.mpr (fun w hw => by
          simp only [beq_iff_eq, hname]
          exact fun hh => huser w hw hh)]
        simp [List.find?, hname, regAccount]
      have hauth : djAuthenticate (registrationPost s i).2 (pyStrip li.username)
          li.password = some (regAccount s (regValidated i)) := by
        rw [hreg]
        show djAuthenticate
          { regApply s (regValidated i) with
              tokens := _, nextTokenNonce := _ } (pyStrip li.username) li.password = _
        simp only [djAuthenticate]
        rw [show ({ regApply s (regValidated i) with
              tokens := (regApply s (regValidated i)).tokens ++
                [⟨(regAccount s (regValidated i)).id,
                  "tok-" ++ toString (regApply s (regValidated i)).nextTokenNonce⟩],
              nextTokenNonce := (regApply s (regValidated i)).nextTokenNonce + 1
            } : Store).users = (regApply s (regValidated i)).users from rfl]
        rw [hfind1]
        rw [hpass]
        simp [checkPassword, regAccount]
      -- the second get_or_create finds the token minted at registration
      have hfind2 : ((registrationPost s i).2).tokens.find?
          (fun t => t.userId == (regAccount s (regValidated i)).id) =
          some ⟨(regAccount s (regValidated i)).id,
            "tok-" ++ toString (regApply s (regValidated i)).nextTokenNonce⟩ := by
        rw [hreg]
        simp [List.find?_append, hfindtok, List.find?]
      have htok2 : tokenGetOrCreate (registrationPost s i).2
          (regAccount s (regValidated i)).id =
          (⟨(regAccount s (regValidated i)).id,
            "tok-" ++ toString (regApply s (regValidated i)).nextTokenNonce⟩,
           (registrationPost s i).2) := by
        simp [tokenGetOrCreate, hfind2]
      simp only [loginPost, hcond, Bool.false_eq_true, if_false, hauth, htok2]
      exact ⟨by trivial, by trivial, by trivial⟩

/-- Witness for C2 at the concrete registration of "alice"/"a@x.com"
against the empty store. -/
theorem C2_registration_effects_and_login_witness :
    ∃ uid tok,
      (registrationPost Store.init ⟨"alice", "a@x.com", "p1", "p1"⟩).1.userId = some uid ∧
      (registrationPost Store.init ⟨"alice", "a@x.com", "p1", "p1"⟩).1.token = some tok ∧
      ((registrationPost Store.init ⟨"alice", "a@x.com", "p1", "p1"⟩).2.users.filter
          (fun u => u.email == (regValidated ⟨"alice", "a@x.com", "p1", "p1"⟩).email)).length = 1 ∧
      ((registrationPost Store.init ⟨"alice", "a@x.com", "p1", "p1"⟩).2.profiles.filter
          (fun p => p.userId == uid)).length = 1 ∧
      (∃ t ∈ (registrationPost Store.init ⟨"alice", "a@x.com", "p1", "p1"⟩).2.tokens,
        t.userId = uid ∧ t.key = tok) ∧
      (∀ li : LoginInput,
        pyStrip li.username = pyTitle (regValidated ⟨"alice", "a@x.com", "p1", "p1"⟩).username →
        li.password = (regValidated ⟨"alice", "a@x.com", "p1", "p1"⟩).password →
        (loginPost (registrationPost Store.init ⟨"alice", "a@x.com", "p1", "p1"⟩).2 li).1.status = 200 ∧
        (loginPost (registrationPost Store.init ⟨"alice", "a@x.com", "p1", "p1"⟩).2 li).1.token = some tok ∧
        (loginPost (registrationPost Store.init ⟨"alice", "a@x.com", "p1", "p1"⟩).2 li).2 =
          (registrationPost Store.init ⟨"alice", "a@x.com", "p1", "p1"⟩).2) :=
  C2_registration_effects_and_login Store.init ⟨"alice", "a@x.com", "p1", "p1"⟩
    (by decide) (by decide)

/-- Claim C6: `perform_create` forces the stored and echoed author to the
requesting identity for every author value the client supplies, and full
or partial updates leave every post's author and creation timestamp
unchanged for every author/created_at value the client supplies. -/
theorem C6_author_and_created_at_immutable (s : Store) (uid pid : Nat) (i j : PostInput)
    (b : Bool) (q : Post) :
    (q ∈ (postCreate s uid i).2.posts → q ∈ s.posts ∨ q.author = uid) ∧
    (∀ r, (postCreate s uid i).1.post = some r → r.author = uid) ∧
    (q ∈ (postUpdate s pid b j).2.posts →
      ∃ q0, q0 ∈ s.posts ∧ q0.id = q.id ∧ q.author = q0.author ∧
        q.createdAt = q0.createdAt) := by
  refine ⟨?_, ?_, ?_⟩
  · intro hq
    cases hv : postRunValidation s false i with
    | error errs =>
      simp only [postCreate, hv] at hq
      exact Or.inl hq
    | ok vd =>
      simp only [postCreate, hv, List.mem_append, List.mem_singleton] at hq
      rcases hq with hq | hq
      · exact Or.inl hq
      · exact Or.inr (by rw [hq])
  · intro r hr
    cases hv : postRunValidation s false i with
    | error errs => simp only [postCreate, hv] at hr; cases hr
    | ok vd =>
      simp only [postCreate, hv, Option.some.injEq] at hr
      rw [← hr]
  · intro hq
    cases hf : s.posts.find? (fun p => p.id == pid) with
    | none =>
      simp only [postUpdate, hf] at hq
      exact ⟨q, hq, rfl, rfl, rfl⟩
    | some old =>
      cases hv : postRunValidation s b j with
      | error errs =>
        simp only [postUpdate, hf, hv] at hq
        exact ⟨q, hq, rfl, rfl, rfl⟩
      | ok vd =>
        simp only [postUpdate, hf, hv, List.mem_map] at hq
        obtain ⟨q0, hq0, hfq⟩ := hq
        by_cases hid : (q0.id == pid) = true
        · rw [if_pos hid] at hfq
          exact ⟨old, List.mem_of_find?_eq_some hf, by rw [← hfq],
            by rw [← hfq], by rw [← hfq]⟩
        · rw [if_neg hid] at hfq
          exact ⟨q0, hq0, by rw [hfq], by rw [hfq], by rw [hfq]⟩

/-- Witness for C6: a concrete create carrying a foreign author id 99 and
a created_at attempt still stores author 7. -/
theorem C6_author_and_created_at_immutable_witness :
    (⟨1, none, 7, "T", "C", 0⟩ : Post) ∈
      (postCreate Store.init 7 ⟨some "T", some "C", none, some 99, some 5⟩).2.posts ∧
    ((⟨1, none, 7, "T", "C", 0⟩ : Post) ∈ Store.init.posts ∨
      (⟨1, none, 7, "T", "C", 0⟩ : Post).author = 7) :=
  ⟨by decide,
   (C6_author_and_created_at_immutable Store.init 7 1
      ⟨some "T", some "C", none, some 99, some 5⟩
      ⟨some "T", some "C", none, some 99, some 5⟩ false
      ⟨1, none, 7, "T", "C", 0⟩).1 (by decide)⟩

/-- Claim C8: a create or update whose payload carries a chat pk that
resolves to no existing Chat is rejected with a 400 response holding a
`chat`-scoped error whose detail contains "object does not exist", and the
store is unchanged (no Post created or modified).  For updates the 400 is
stated for an existing target post (a missing post id is answered 404,
also without a write). -/
theorem C8_nonexistent_chat_rejected (s : Store) (uid pid : Nat) (i : PostInput) (cid : Nat)
    (hchat : i.chat = some (some cid))
    (habs : ∀ c ∈ s.chats, c.id ≠ cid) :
    ((postCreate s uid i).1.status = 400 ∧
     FieldError.doesNotExist "chat" cid ∈ (postCreate s uid i).1.errors ∧
     (postCreate s uid i).2 = s) ∧
    (∀ b : Bool, (postUpdate s pid b i).2 = s ∧
       ((∃ p ∈ s.posts, p.id = pid) →
         (postUpdate s pid b i).1.status = 400 ∧
         FieldError.doesNotExist "chat" cid ∈ (postUpdate s pid b i).1.errors)) ∧
    (FieldError.doesNotExist "chat" cid).message =
      ("Invalid pk \"" ++ toString cid ++ "\" - ") ++ ("object does not exist" ++ ".") := by
  obtain ⟨errsC, hvC, hmemC⟩ := postRunValidation_bad_chat s false i cid hchat habs
  refine ⟨?_, ?_, ?_⟩
  · simp only [postCreate, hvC]
    exact ⟨by trivial, hmemC, by trivial⟩
  · intro b
    obtain ⟨errsB, hvB, hmemB⟩ := postRunValidation_bad_chat s b i cid hchat habs
    cases hf : s.posts.find? (fun p => p.id == pid) with
    | none =>
      simp only [postUpdate, hf]
      refine ⟨by trivial, ?_⟩
      rintro ⟨p, hp, hpid⟩
      exact absurd (by simp [hpid] : (fun p => p.id == pid) p = true)
        (List.find?_eq_none.mp hf p hp)
    | some old =>
      simp only [postUpdate, hf, hvB]
      exact ⟨by trivial, fun _ => ⟨by trivial, hmemB⟩⟩
  · have hL : ("\" - object does not exist." : String) =
        "\" - " ++ ("object does not exist" ++ ".") := by decide
    show "Invalid pk \"" ++ toString cid ++ "\" - object does not exist." = _
    rw [hL, ← String.append_assoc, ← String.append_assoc]

/-- Witness for C8: chat pk 9999 against a store holding only chat 1 and
post 1, exercising both the create and the update rejection. -/
theorem C8_nonexistent_chat_rejected_witness :
    let s : Store :=
      { users := [], profiles := [], tokens := [],
        chats := [⟨1, "General", []⟩], messages := [],
        posts := [⟨1, some 1, 1, "T", "C", 0⟩],
        nextUserId := 2, nextProfileId := 1, nextChatId := 2, nextPostId := 2,
        nextTokenNonce := 0, clock := 1 }
    let i : PostInput := ⟨some "X", some "Y", some (some 9999), none, none⟩
    ((postCreate s 1 i).1.status = 400 ∧
     FieldError.doesNotExist "chat" 9999 ∈ (postCreate s 1 i).1.errors ∧
     (postCreate s 1 i).2 = s) ∧
    (∀ b : Bool, (postUpdate s 1 b i).2 = s ∧
       ((∃ p ∈ s.posts, p.id = 1) →
         (postUpdate s 1 b i).1.status = 400 ∧
         FieldError.doesNotExist "chat" 9999 ∈ (postUpdate s 1 b i).1.errors)) ∧
    (FieldError.doesNotExist "chat" 9999).message =
      ("Invalid pk \"" ++ toString 9999 ++ "\" - ") ++ ("object does not exist" ++ ".") :=
  C8_nonexistent_chat_rejected _ 1 1 _ 9999 rfl (by decide)

/-- The components of a passing `RegistrationSerializer` field validation. -/
theorem regFieldsValid_inv {i : RegInput} (hv : regFieldsValid i = true) :
    pyStrip i.username ≠ "" ∧ pyStrip i.email ≠ "" ∧ pyStrip i.password ≠ "" ∧
    pyStrip i.repeatedPassword ≠ "" := by
  simpa [regFieldsValid, Bool.and_eq_true, bne_iff_ne, and_assoc] using hv

/-- The two registration writes preserve the store invariant. -/
theorem storeInv_regApply {s : Store} {i : RegInput} (h : StoreInv s)
    (hv : regFieldsValid i = true)
    (hemail : ∀ w ∈ s.users, w.email ≠ (regValidated i).email)
    (huser : ∀ w ∈ s.users, w.username ≠ pyTitle (regValidated i).username) :
    StoreInv (regApply s (regValidated i)) := by
  unfold StoreInv at h ⊢
  obtain ⟨hU, hPu, hPe, hC, hP⟩ := h
  obtain ⟨hvu, hve, -, -⟩ := regFieldsValid_inv hv
  refine ⟨?_, ?_, ?_, ?_, ?_⟩
  · intro u hu
    simp only [regApply, List.mem_append, List.mem_singleton] at hu
    rcases hu with hu | hu
    · exact hU u hu
    · subst hu
      exact ⟨pyTitle_ne_empty hvu, hve⟩
  · simp only [regApply, List.pairwise_append]
    refine ⟨hPu, by simp, ?_⟩
    intro a ha b hb
    simp only [List.mem_singleton] at hb
    subst hb
    exact huser a ha
  · simp only [regApply, List.pairwise_append]
    refine ⟨hPe, by simp, ?_⟩
    intro a ha b hb
    simp only [List.mem_singleton] at hb
    subst hb
    exact hemail a ha
  · intro c hc
    simp only [regApply] at hc
    exact hC c hc
  · intro p hp
    simp only [regApply] at hp
    exact hP p hp

/-- The invariant only reads the user, chat and post tables, so it
transports along token issuance. -/
theorem storeInv_tokenGetOrCreate {x : Store} (u : Nat) (h : StoreInv x) :
    StoreInv (tokenGetOrCreate x u).2 := by
  have hfr := tokenGetOrCreate_frame x u
  unfold StoreInv at h ⊢
  rw [hfr.1, hfr.2.2.1, hfr.2.2.2.1]
  exact h

/-- The registration endpoint preserves the store invariant. -/
theorem storeInv_registrationPost {s : Store} (i : RegInput) (h : StoreInv s) :
    StoreInv (registrationPost s i).2 := by
  by_cases hv : regFieldsValid i = true
  case neg => simpa [registrationPost, hv] using h
  cases hc : regCreate s (regValidated i) with
  | error e => simpa [registrationPost, hv, hc] using h
  | ok pair =>
    obtain ⟨s1, account⟩ := pair
    obtain ⟨-, hemail, huser, hs1, hacc⟩ := regCreate_ok_inv hc
    subst hs1; subst hacc
    have hti := storeInv_tokenGetOrCreate (regAccount s (regValidated i)).id
      (storeInv_regApply h hv hemail huser)
    simpa [registrationPost, hv, hc] using hti

/-- The login endpoint preserves the store invariant. -/
theorem storeInv_loginPost {s : Store} (i : LoginInput) (h : StoreInv s) :
    StoreInv (loginPost s i).2 := by
  cases hcond : (pyStrip i.username == "" || i.password == "") with
  | true => simpa [loginPost, hcond] using h
  | false =>
    cases hauth : djAuthenticate s (pyStrip i.username) i.password with
    | none => simpa [loginPost, hcond, hauth] using h
    | some u =>
      simpa [loginPost, hcond, hauth] using storeInv_tokenGetOrCreate u.id h

/-- Post creation preserves the store invariant. -/
theorem storeInv_postCreate {s : Store} (uid : Nat) (i : PostInput) (h : StoreInv s) :
    StoreInv (postCreate s uid i).2 := by
  cases hvv : postRunValidation s false i with
  | error errs => simpa [postCreate, hvv] using h
  | ok vd =>
    obtain ⟨hvt, -, -, hblank, hreq⟩ := postRunValidation_ok_inv hvv
    unfold StoreInv at h ⊢
    obtain ⟨hU, hPu, hPe, hC, hP⟩ := h
    have hnew : vd.title.getD "" ≠ "" := by
      cases hti : i.title with
      | none => exact absurd hti (hreq rfl)
      | some t =>
        have h2 : some (pyStrip t) = vd.title := by rw [hvt, hti]; rfl
        rw [← h2]
        simpa using hblank t hti
    refine ⟨?_, ?_, ?_, ?_, ?_⟩
    · intro u hu
      simp only [postCreate, hvv] at hu
      exact hU u hu
    · simp only [postCreate, hvv]
      exact hPu
    · simp only [postCreate, hvv]
      exact hPe
    · intro c hc
      simp only [postCreate, hvv] at hc
      exact hC c hc
    · intro p hp
      simp only [postCreate, hvv, List.mem_append, List.mem_singleton] at hp
      rcases hp with hp | hp
      · exact hP p hp
      · subst hp
        exact hnew

/-- Post full and partial updates preserve the store invariant. -/
theorem storeInv_postUpdate {s : Store} (pid : Nat) (b : Bool) (i : PostInput)
    (h : StoreInv s) : StoreInv (postUpdate s pid b i).2 := by
  cases hf : s.posts.find? (fun p => p.id == pid) with
  | none => simpa [postUpdate, hf] using h
  | some old =>
    cases hvv : postRunValidation s b i with
    | error errs => simpa [postUpdate, hf, hvv] using h
    | ok vd =>
      obtain ⟨hvt, -, -, hblank, -⟩ := postRunValidation_ok_inv hvv
      unfold StoreInv at h ⊢
      obtain ⟨hU, hPu, hPe, hC, hP⟩ := h
      have holdmem : old ∈ s.posts := List.mem_of_find?_eq_some hf
      have hup : vd.title.getD old.title ≠ "" := by
        cases hvt' : vd.title with
        | none => simpa using hP old holdmem
        | some t' =>
          have hmap : i.title.map pyStrip = some t' := by rw [← hvt]; exact hvt'
          cases hti : i.title with
          | none => rw [hti] at hmap; cases hmap
          | some t =>
            rw [hti] at hmap
            have h2 : some (pyStrip t) = some t' := hmap
            injection h2 with h3
            rw [← h3]
            simpa using hblank t hti
      refine ⟨?_, ?_, ?_, ?_, ?_⟩
      · intro u hu
        simp only [postUpdate, hf, hvv] at hu
        exact hU u hu
      · simp only [postUpdate, hf, hvv]
        exact hPu
      · simp only [postUpdate, hf, hvv]
        exact hPe
      · intro c hc
        simp only [postUpdate, hf, hvv] at hc
        exact hC c hc
      · intro p hp
        simp only [postUpdate, hf, hvv, List.mem_map] at hp
        obtain ⟨q0, hq0, hfq⟩ := hp
        by_cases hid : (q0.id == pid) = true
        · rw [if_pos hid] at hfq
          rw [← hfq]
          exact hup
        · rw [if_neg hid] at hfq
          rw [← hfq]
          exact hP q0 hq0

/-- Post deletion preserves the store invariant. -/
theorem storeInv_postDelete {s : Store} (pid : Nat) (h : StoreInv s) :
    StoreInv (postDelete s pid).2 := by
  cases hf : s.posts.find? (fun p => p.id == pid) with
  | none => simpa [postDelete, hf] using h
  | some old =>
    unfold StoreInv at h ⊢
    obtain ⟨hU, hPu, hPe, hC, hP⟩ := h
    refine ⟨?_, ?_, ?_, ?_, ?_⟩ <;> simp only [postDelete, hf]
    · exact hU
    · exact hPu
    · exact hPe
    · exact hC
    · intro p hp
      exact hP p (List.mem_filter.mp hp).1

/-- The spec-modelled Chat creation preserves the store invariant. -/
theorem storeInv_chatCreateSpec {s : Store} (i : ChatInput) (h : StoreInv s) :
    StoreInv (chatCreateSpec s i) := by
  cases hti : i.title with
  | none => simpa [chatCreateSpec, hti] using h
  | some t =>
    by_cases hb : pyStrip t = ""
    · simpa [chatCreateSpec, hti, hb] using h
    · unfold StoreInv at h ⊢
      obtain ⟨hU, hPu, hPe, hC, hP⟩ := h
      refine ⟨?_, ?_, ?_, ?_, ?_⟩ <;> simp only [chatCreateSpec, hti, if_neg hb]
      · exact hU
      · exact hPu
      · exact hPe
      · intro c hc
        simp only [List.mem_append, List.mem_singleton] at hc
        rcases hc with hc | hc
        · exact hC c hc
        · subst hc
          exact hb
      · exact hP

/-- Chat deletion preserves the store invariant. -/
theorem storeInv_deleteChat {s : Store} (cid : Nat) (h : StoreInv s) :
    StoreInv (deleteChat s cid) := by
  unfold StoreInv at h ⊢
  obtain ⟨hU, hPu, hPe, hC, hP⟩ := h
  refine ⟨?_, ?_, ?_, ?_, ?_⟩ <;> simp only [deleteChat]
  · exact hU
  · exact hPu
  · exact hPe
  · intro c hc
    exact hC c (List.mem_filter.mp hc).1
  · intro p hp
    exact hP p (List.mem_filter.mp hp).1

/-- User deletion preserves the store invariant. -/
theorem storeInv_deleteUser {s : Store} (uid : Nat) (h : StoreInv s) :
    StoreInv (deleteUser s uid) := by
  unfold StoreInv at h ⊢
  obtain ⟨hU, hPu, hPe, hC, hP⟩ := h
  refine ⟨?_, ?_, ?_, ?_, ?_⟩ <;> simp only [deleteUser]
  · intro u hu
    exact hU u (List.mem_filter.mp hu).1
  · exact List.Pairwise.sublist (List.filter_sublist _) hPu
  · exact List.Pairwise.sublist (List.filter_sublist _) hPe
  · intro c hc
    simp only [List.mem_map] at hc
    obtain ⟨c0, hc0, hfc⟩ := hc
    rw [← hfc]
    exact hC c0 hc0
  · intro p hp
    exact hP p (List.mem_filter.mp hp).1

/-- The dispatcher over all six Post actions preserves the store invariant. -/
theorem storeInv_postEndpoint {s : Store} (req : PostRequest) (h : StoreInv s) :
    StoreInv (postEndpoint s req).2 := by
  obtain ⟨auth, act⟩ := req
  cases auth with
  | none => simpa [postEndpoint] using h
  | some uid =>
    cases act with
    | list => simpa [postEndpoint] using h
    | retrieve pid => simpa [postEndpoint] using h
    | create body => simpa [postEndpoint] using storeInv_postCreate uid body h
    | put pid body => simpa [postEndpoint] using storeInv_postUpdate pid false body h
    | patch pid body => simpa [postEndpoint] using storeInv_postUpdate pid true body h
    | delete pid => simpa [postEndpoint] using storeInv_postDelete pid h

/-- Claim C5 counterexample: the state reached by registering
"alice"/"a@x.com" from the empty store is reachable, yet its UserProfile —
created by `UserProfile.objects.create(user=account)` with no email — has
the empty string in its required email field, against the claim that every
record with a required email field is non-empty. -/
theorem C5_profile_email_cex :
    Reachable (registrationPost Store.init ⟨"alice", "a@x.com", "p1", "p1"⟩).2 ∧
    ¬ (∀ pr ∈ (registrationPost Store.init ⟨"alice", "a@x.com", "p1", "p1"⟩).2.profiles,
        pr.email ≠ "") :=
  ⟨Reachable.registration Store.init ⟨"alice", "a@x.com", "p1", "p1"⟩ Reachable.init,
   by decide⟩

/-- Claim C5 (amended): in every reachable store state, every Chat and
Post has a non-empty title, every User has a non-empty username and a
non-empty e-mail, and usernames and e-mails are unique across Users; the
UserProfile created by registration however carries the empty string as
its email (the profile is created empty), so the profile-email part of
the original claim does not hold. -/
theorem C5_reachable_invariant (s : Store) (h : Reachable s) : StoreInv s := by
  induction h with
  | init => decide
  | registration s i _ ih => exact storeInv_registrationPost i ih
  | login s i _ ih => exact storeInv_loginPost i ih
  | postReq s req _ ih => exact storeInv_postEndpoint req ih
  | chatNew s i _ ih => exact storeInv_chatCreateSpec i ih
  | chatDel s cid _ ih => exact storeInv_deleteChat cid ih
  | userDel s uid _ ih => exact storeInv_deleteUser uid ih

/-- Witness for C5 at the state reached by one concrete registration. -/
theorem C5_reachable_invariant_witness :
    StoreInv (registrationPost Store.init ⟨"bob smith", "b@x.com", "pw", "pw"⟩).2 :=
  C5_reachable_invariant _
    (Reachable.registration Store.init ⟨"bob smith", "b@x.com", "pw", "pw"⟩
      Reachable.init)

/-- Claim C10: a partial (PATCH) update of an existing Post that passes
validation returns 200, and every omitted writable field (title, content,
chat) retains its prior value in the stored and echoed post; id, author
and created_at are unchanged as well. -/
theorem C10_patch_frame (s : Store) (pid : Nat) (i : PostInput) (old : Post)
    (vd : PostValidated)
    (hold : s.posts.find? (fun p => p.id == pid) = some old)
    (hv : postRunValidation s true i = .ok vd) :
    (postUpdate s pid true i).1.status = 200 ∧
    ∀ q, (postUpdate s pid true i).1.post = some q →
      q.id = old.id ∧ q.author = old.author ∧ q.createdAt = old.createdAt ∧
      (i.title = none → q.title = old.title) ∧
      (i.content = none → q.content = old.content) ∧
      (i.chat = none → q.chat = old.chat) ∧
      q ∈ (postUpdate s pid true i).2.posts := by
  obtain ⟨hvt, hvc, hvch, -, -⟩ := postRunValidation_ok_inv hv
  constructor
  · simp only [postUpdate, hold, hv]
  · intro q hq
    simp only [postUpdate, hold, hv, Option.some.injEq] at hq
    subst hq
    refine ⟨rfl, rfl, rfl, ?_, ?_, ?_, ?_⟩
    · intro ht
      show vd.title.getD old.title = old.title
      rw [hvt, ht]
      rfl
    · intro hc
      show vd.content.getD old.content = old.content
      rw [hvc, hc]
      rfl
    · intro hc
      show (match vd.chat with | none => old.chat | some c => c) = old.chat
      rw [hvch, hc]
    · simp only [postUpdate, hold, hv, List.mem_map]
      exact ⟨old, List.mem_of_find?_eq_some hold,
        by rw [if_pos (List.find?_some hold)]⟩

/-- Witness for C10: patching only the title of an existing post leaves
content and chat at their prior values and returns 200. -/
theorem C10_patch_frame_witness :
    let s : Store :=
      { users := [], profiles := [], tokens := [],
        chats := [⟨1, "General", []⟩], messages := [],
        posts := [⟨1, some 1, 1, "Old", "Keep", 0⟩],
        nextUserId := 2, nextProfileId := 1, nextChatId := 2, nextPostId := 2,
        nextTokenNonce := 0, clock := 1 }
    let i : PostInput := ⟨some "New", none, none, none, none⟩
    (postUpdate s 1 true i).1.status = 200 ∧
    ∀ q, (postUpdate s 1 true i).1.post = some q →
      q.id = (⟨1, some 1, 1, "Old", "Keep", 0⟩ : Post).id ∧
      q.author = (⟨1, some 1, 1, "Old", "Keep", 0⟩ : Post).author ∧
      q.createdAt = (⟨1, some 1, 1, "Old", "Keep", 0⟩ : Post).createdAt ∧
      (i.title = none → q.title = (⟨1, some 1, 1, "Old", "Keep", 0⟩ : Post).title) ∧
      (i.content = none → q.content = (⟨1, some 1, 1, "Old", "Keep", 0⟩ : Post).content) ∧
      (i.chat = none → q.chat = (⟨1, some 1, 1, "Old", "Keep", 0⟩ : Post).chat) ∧
      q ∈ (postUpdate s 1 true i).2.posts :=
  C10_patch_frame _ 1 _ ⟨1, some 1, 1, "Old", "Keep", 0⟩
    ⟨some "New", none, none⟩ (by decide) (by rfl)

end DABubble
